import Mathlib

/-!
# Verification of the `wamp_async` WAMP client against its specification

Shallow embedding of the parts of the `wamp_async` Rust crate that the
claims concern: the strict URI validator (`src/common.rs`), the message
schema and its tuple (de)serialization (`src/message.rs`), the session
engine's command handlers and inbound dispatch (`src/core/send.rs`,
`src/core/recv.rs`, `src/core/mod.rs`), and the raw-socket handshake
(`src/transport/tcp.rs`).
-/

namespace WampAsync

/-! ## Strict URI validation (`src/common.rs`, `is_valid_strict_uri`) -/

/-- ASCII fragment of Rust `char::is_lowercase` (the Unicode `Lowercase`
property). On ASCII characters the property holds exactly on `a`-`z`;
in particular it is false on digits, on `.` and on `_`. All URIs examined
by the claims are ASCII. -/
def rust_is_lowercase (c : Char) : Bool :=
  'a' ≤ c && c ≤ 'z'

/-- ASCII fragment of Rust `char::is_alphanumeric` (Unicode `Alphabetic`
plus decimal digits): on ASCII it holds exactly on letters and digits. -/
def rust_is_alphanumeric (c : Char) : Bool :=
  ('a' ≤ c && c ≤ 'z') || ('A' ≤ c && c ≤ 'Z') || ('0' ≤ c && c ≤ '9')

/-- `uri.starts_with("wamp.")` from `is_valid_strict_uri`. -/
def starts_with_wamp_dot : List Char → Bool
  | 'w' :: 'a' :: 'm' :: 'p' :: '.' :: _ => true
  | _ => false

/-- The character loop of `is_valid_strict_uri` (`src/common.rs` lines
335-364). `num_chars_token` counts the characters of the current token.
For `c = '.'` the code resets the counter (or rejects an empty token) and
then *falls through* to the per-character checks; there is no `continue`
in the dot branch, so the `is_lowercase` test is applied to `'.'` as well. -/
def is_valid_strict_uri_loop : List Char → Nat → Bool
  | [], _ => true
  | c :: rest, num_chars_token =>
    if c = '.' then
      if num_chars_token = 0 then false
      else
        if c = '_' then is_valid_strict_uri_loop rest 0
        else if !(rust_is_lowercase c) then false
        else if !(rust_is_alphanumeric c) then false
        else is_valid_strict_uri_loop rest 0
    else
      if c = '_' then is_valid_strict_uri_loop rest (num_chars_token + 1)
      else if !(rust_is_lowercase c) then false
      else if !(rust_is_alphanumeric c) then false
      else is_valid_strict_uri_loop rest (num_chars_token + 1)

/-- `is_valid_strict_uri` (`src/common.rs` lines 326-367). -/
def is_valid_strict_uri (uri : String) : Bool :=
  if starts_with_wamp_dot uri.data then false
  else is_valid_strict_uri_loop uri.data 0

example : is_valid_strict_uri "com" = true := by decide
example : is_valid_strict_uri "com.example.topic_one" = false := by decide
example : is_valid_strict_uri "wamp.x" = false := by decide
example : is_valid_strict_uri ".." = false := by decide
example : is_valid_strict_uri "Upper.case" = false := by decide
example : is_valid_strict_uri "foo!bar" = false := by decide
example : is_valid_strict_uri "a1" = false := by decide
example : is_valid_strict_uri "topic_one" = true := by decide

/-- C1 (what the code does): the dot branch of the scanner falls through to
the `is_lowercase` check, which `'.'` fails, so every dotted URI — the
spec's positive example `com.example.topic_one` included — is rejected, as
is any URI containing a digit (digits are not `Lowercase`); the spec's
negative examples are rejected as well, and an undotted
lowercase-and-underscore string is accepted. -/
theorem c1_strict_uri_rejects_dotted_uris :
    is_valid_strict_uri "com.example.topic_one" = false ∧
    is_valid_strict_uri "a1" = false ∧
    is_valid_strict_uri "wamp.x" = false ∧
    is_valid_strict_uri ".." = false ∧
    is_valid_strict_uri "Upper.case" = false ∧
    is_valid_strict_uri "foo!bar" = false ∧
    is_valid_strict_uri "topic_one" = true := by decide

/-! ## WAMP values and the message schema (`src/common.rs`, `src/message.rs`)

`WampId` wraps a `NonZeroU64`; payload values (`WampPayloadValue =
serde_json::Value`) are modelled by `PV` (floats are not used by any claim
and are omitted). Maps (`HashMap` / `serde_json::Map`) are modelled as
association lists, since key order is not observable. The three codecs
(JSON, MsgPack, CBOR) all (de)serialize `Msg` through the same serde
data model — the positional tuple built by `impl Serialize for Msg` — so
packing is modelled as producing that tuple (`List PV`) and unpacking as
parsing it; the byte-level rendering of the value tree is external library
code (`serde_json`, `rmp-serde`, `serde_cbor`) and is faithful on it. -/

abbrev WampId := {n : Nat // 1 ≤ n}

/-- `serde_json::Value` as used for WAMP payloads. -/
inductive PV
  | null
  | bool (b : Bool)
  | num (n : Nat)
  | str (s : String)
  | arr (l : List PV)
  | obj (l : List (String × PV))

abbrev WampArgs := List PV

abbrev WampKwArgs := List (String × PV)

/-- The `Arg` enum of `src/common.rs` (serde `untagged`). -/
inductive Arg
  | Uri (s : String)
  | Id (i : WampId)
  | Integer (n : Nat)
  | String (s : String)
  | Bool (b : Bool)
  | Dict (d : List (String × Arg))
  | List (l : List Arg)
  | None

abbrev WampDict := List (String × Arg)

/-- `AuthenticationMethod` (`src/common.rs`). -/
inductive AuthMethod
  | Anonymous
  | WampCra
  | Ticket
  | CryptoSign

/-- The strum string tags of `AuthenticationMethod`. -/
def AuthMethod.as_str : AuthMethod → String
  | .Anonymous => "anonymous"
  | .WampCra => "wampcra"
  | .Ticket => "ticket"
  | .CryptoSign => "cryptosign"

/-- `AuthenticationMethod::from_str` (strum `EnumString`). -/
def AuthMethod.from_str (s : String) : Option AuthMethod :=
  if s = "anonymous" then some .Anonymous
  else if s = "wampcra" then some .WampCra
  else if s = "ticket" then some .Ticket
  else if s = "cryptosign" then some .CryptoSign
  else none

/- Serialization of `Arg` (serde `untagged`: each variant serializes as its
payload; `Id` as the inner nonzero integer, `None` as null). Mutual with the
list/entry encoders for the nested `Dict`/`List` variants. -/
mutual
def encodeArg : Arg → PV
  | .Uri s => .str s
  | .Id i => .num i.val
  | .Integer n => .num n
  | .String s => .str s
  | .Bool b => .bool b
  | .Dict d => .obj (encodeEntries d)
  | .List l => .arr (encodeList l)
  | .None => .null

def encodeEntries : List (String × Arg) → List (String × PV)
  | [] => []
  | (k, v) :: rest => (k, encodeArg v) :: encodeEntries rest

def encodeList : List Arg → List PV
  | [] => []
  | a :: rest => encodeArg a :: encodeList rest
end

/- Deserialization of `Arg`: serde `untagged` tries the variants in
declaration order (Uri, Id, Integer, String, Bool, Dict, List, None), so a
string becomes `Uri`, a nonzero integer becomes `Id` (`NonZeroU64` rejects
0, which falls through to `Integer`), and null becomes `None`. -/
mutual
def decodeArg : PV → Arg
  | .str s => .Uri s
  | .num n => if h : 1 ≤ n then .Id ⟨n, h⟩ else .Integer n
  | .bool b => .Bool b
  | .obj l => .Dict (decodeEntries l)
  | .arr l => .List (decodeList l)
  | .null => .None

def decodeEntries : List (String × PV) → List (String × Arg)
  | [] => []
  | (k, v) :: rest => (k, decodeArg v) :: decodeEntries rest

def decodeList : List PV → List Arg
  | [] => []
  | v :: rest => decodeArg v :: decodeList rest
end

/- The canonical form an `Arg` assumes after one encode/decode round trip:
`String` collapses to `Uri`, a nonzero `Integer` collapses to `Id`. -/
mutual
def canonArg : Arg → Arg
  | .Uri s => .Uri s
  | .Id i => .Id i
  | .Integer n => if h : 1 ≤ n then .Id ⟨n, h⟩ else .Integer n
  | .String s => .Uri s
  | .Bool b => .Bool b
  | .Dict d => .Dict (canonEntries d)
  | .List l => .List (canonList l)
  | .None => .None

def canonEntries : List (String × Arg) → List (String × Arg)
  | [] => []
  | (k, v) :: rest => (k, canonArg v) :: canonEntries rest

def canonList : List Arg → List Arg
  | [] => []
  | a :: rest => canonArg a :: canonList rest
end

/-- The `Msg` enum of `src/message.rs`. -/
inductive Msg
  | Hello (realm : String) (details : WampDict)
  | Welcome (session : WampId) (details : WampDict)
  | Abort (details : WampDict) (reason : String)
  | Challenge (authentication_method : AuthMethod) (extra : WampDict)
  | Authenticate (signature : String) (extra : WampDict)
  | Goodbye (details : WampDict) (reason : String)
  | Error (typ : Nat) (request : WampId) (details : WampDict) (error : String)
      (arguments : Option WampArgs) (arguments_kw : Option WampKwArgs)
  | Publish (request : WampId) (options : WampDict) (topic : String)
      (arguments : Option WampArgs) (arguments_kw : Option WampKwArgs)
  | Published (request : WampId) (publication : WampId)
  | Subscribe (request : WampId) (options : WampDict) (topic : String)
  | Subscribed (request : WampId) (subscription : WampId)
  | Unsubscribe (request : WampId) (subscription : WampId)
  | Unsubscribed (request : WampId)
  | Event (subscription : WampId) (publication : WampId) (details : WampDict)
      (arguments : Option WampArgs) (arguments_kw : Option WampKwArgs)
  | Call (request : WampId) (options : WampDict) (procedure : String)
      (arguments : Option WampArgs) (arguments_kw : Option WampKwArgs)
  | Result (request : WampId) (details : WampDict)
      (arguments : Option WampArgs) (arguments_kw : Option WampKwArgs)
  | Register (request : WampId) (options : WampDict) (procedure : String)
  | Registered (request : WampId) (registration : WampId)
  | Unregister (request : WampId) (registration : WampId)
  | Unregistered (request : WampId)
  | Invocation (request : WampId) (registration : WampId) (details : WampDict)
      (arguments : Option WampArgs) (arguments_kw : Option WampKwArgs)
  | Yield (request : WampId) (options : WampDict)
      (arguments : Option WampArgs) (arguments_kw : Option WampKwArgs)

def HELLO_ID : Nat := 1
def WELCOME_ID : Nat := 2
def ABORT_ID : Nat := 3
def CHALLENGE_ID : Nat := 4
def AUTHENTICATE_ID : Nat := 5
def GOODBYE_ID : Nat := 6
def ERROR_ID : Nat := 8
def PUBLISH_ID : Nat := 16
def PUBLISHED_ID : Nat := 17
def SUBSCRIBE_ID : Nat := 32
def SUBSCRIBED_ID : Nat := 33
def UNSUBSCRIBE_ID : Nat := 34
def UNSUBSCRIBED_ID : Nat := 35
def EVENT_ID : Nat := 36
def CALL_ID : Nat := 48
def RESULT_ID : Nat := 50
def REGISTER_ID : Nat := 64
def REGISTERED_ID : Nat := 65
def UNREGISTER_ID : Nat := 66
def UNREGISTERED_ID : Nat := 67
def INVOCATION_ID : Nat := 68
def YIELD_ID : Nat := 70

/-- The trailing `arguments`/`arguments_kw` emission repeated in each
payload-carrying arm of `impl Serialize for Msg`: if `arguments_kw` is
present, `arguments` is emitted too (`arguments.as_ref().unwrap_or(&new())`,
i.e. defaulting to the empty array); if only `arguments` is present it is
emitted alone; if neither is present both are omitted. -/
def packTrailing (arguments : Option WampArgs) (arguments_kw : Option WampKwArgs) :
    List PV :=
  match arguments_kw with
  | some kw => [.arr (arguments.getD []), .obj kw]
  | none =>
    match arguments with
    | some a => [.arr a]
    | none => []

/-- `impl Serialize for Msg`: each variant serializes as the positional
tuple led by its message code. -/
def pack : Msg → List PV
  | .Hello realm details =>
      [.num HELLO_ID, .str realm, .obj (encodeEntries details)]
  | .Welcome session details =>
      [.num WELCOME_ID, .num session.val, .obj (encodeEntries details)]
  | .Abort details reason =>
      [.num ABORT_ID, .obj (encodeEntries details), .str reason]
  | .Challenge m extra =>
      [.num CHALLENGE_ID, .str m.as_str, .obj (encodeEntries extra)]
  | .Authenticate signature extra =>
      [.num AUTHENTICATE_ID, .str signature, .obj (encodeEntries extra)]
  | .Goodbye details reason =>
      [.num GOODBYE_ID, .obj (encodeEntries details), .str reason]
  | .Error typ request details err a kw =>
      [.num ERROR_ID, .num typ, .num request.val, .obj (encodeEntries details),
        .str err] ++ packTrailing a kw
  | .Publish request options topic a kw =>
      [.num PUBLISH_ID, .num request.val, .obj (encodeEntries options),
        .str topic] ++ packTrailing a kw
  | .Published request publication =>
      [.num PUBLISHED_ID, .num request.val, .num publication.val]
  | .Subscribe request options topic =>
      [.num SUBSCRIBE_ID, .num request.val, .obj (encodeEntries options), .str topic]
  | .Subscribed request subscription =>
      [.num SUBSCRIBED_ID, .num request.val, .num subscription.val]
  | .Unsubscribe request subscription =>
      [.num UNSUBSCRIBE_ID, .num request.val, .num subscription.val]
  | .Unsubscribed request =>
      [.num UNSUBSCRIBED_ID, .num request.val]
  | .Event subscription publication details a kw =>
      [.num EVENT_ID, .num subscription.val, .num publication.val,
        .obj (encodeEntries details)] ++ packTrailing a kw
  | .Call request options procedure a kw =>
      [.num CALL_ID, .num request.val, .obj (encodeEntries options),
        .str procedure] ++ packTrailing a kw
  | .Result request details a kw =>
      [.num RESULT_ID, .num request.val, .obj (encodeEntries details)]
        ++ packTrailing a kw
  | .Register request options procedure =>
      [.num REGISTER_ID, .num request.val, .obj (encodeEntries options), .str procedure]
  | .Registered request registration =>
      [.num REGISTERED_ID, .num request.val, .num registration.val]
  | .Unregister request registration =>
      [.num UNREGISTER_ID, .num request.val, .num registration.val]
  | .Unregistered request =>
      [.num UNREGISTERED_ID, .num request.val]
  | .Invocation request registration details a kw =>
      [.num INVOCATION_ID, .num request.val, .num registration.val,
        .obj (encodeEntries details)] ++ packTrailing a kw
  | .Yield request options a kw =>
      [.num YIELD_ID, .num request.val, .obj (encodeEntries options)]
        ++ packTrailing a kw

/-! Element decoders used by `impl Deserialize for Msg` (`next_element::<T>`
for each field type, failing like serde does on a type mismatch). -/

/-- `next_element::<WampInteger>` on a present element. -/
def as_integer : PV → Except String Nat
  | .num n => .ok n
  | _ => .error "expected integer"

/-- `next_element::<WampId>`: `NonZeroU64` rejects zero. -/
def as_id : PV → Except String WampId
  | .num n => if h : 1 ≤ n then .ok ⟨n, h⟩ else .error "expected nonzero id"
  | _ => .error "expected id"

/-- `next_element::<WampString>` / `::<WampUri>`. -/
def as_str : PV → Except String String
  | .str s => .ok s
  | _ => .error "expected string"

/-- `next_element::<WampDict>`. -/
def as_dict : PV → Except String WampDict
  | .obj l => .ok (decodeEntries l)
  | _ => .error "expected dict"

/-- `next_element::<AuthenticationMethod>`: a string parsed by `from_str`. -/
def as_auth_method : PV → Except String AuthMethod
  | .str s =>
    match AuthMethod.from_str s with
    | some m => .ok m
    | none => .error "unknown authentication method"
  | _ => .error "expected string"

/-- `next_element::<Option<WampArgs>>` on a present element: a null decodes
to `None`, an array to `Some`. -/
def as_opt_args : PV → Except String (Option WampArgs)
  | .null => .ok none
  | .arr l => .ok (some l)
  | _ => .error "expected args"

/-- `next_element::<Option<WampKwArgs>>` on a present element. -/
def as_opt_kwargs : PV → Except String (Option WampKwArgs)
  | .null => .ok none
  | .obj l => .ok (some l)
  | _ => .error "expected kwargs"

/-- The two optional trailing fields: `v.next_element()?.unwrap_or(None)`
twice — an absent element yields `None`; the codecs reject a tuple longer
than the visitor consumes. -/
def unpackTrailing : List PV → Except String (Option WampArgs × Option WampKwArgs)
  | [] => .ok (none, none)
  | [a] => do
      let arguments ← as_opt_args a
      .ok (arguments, none)
  | [a, kw] => do
      let arguments ← as_opt_args a
      let arguments_kw ← as_opt_kwargs kw
      .ok (arguments, arguments_kw)
  | _ => .error "too many elements"

def de_hello : List PV → Except String Msg
  | [realm, details] => do
      .ok (Msg.Hello (← as_str realm) (← as_dict details))
  | _ => .error "HELLO: wrong arity"

def de_welcome : List PV → Except String Msg
  | [session, details] => do
      .ok (Msg.Welcome (← as_id session) (← as_dict details))
  | _ => .error "WELCOME: wrong arity"

def de_abort : List PV → Except String Msg
  | [details, reason] => do
      .ok (Msg.Abort (← as_dict details) (← as_str reason))
  | _ => .error "ABORT: wrong arity"

def de_challenge : List PV → Except String Msg
  | [m, extra] => do
      .ok (Msg.Challenge (← as_auth_method m) (← as_dict extra))
  | _ => .error "CHALLENGE: wrong arity"

def de_authenticate : List PV → Except String Msg
  | [signature, extra] => do
      .ok (Msg.Authenticate (← as_str signature) (← as_dict extra))
  | _ => .error "AUTHENTICATE: wrong arity"

def de_goodbye : List PV → Except String Msg
  | [details, reason] => do
      .ok (Msg.Goodbye (← as_dict details) (← as_str reason))
  | _ => .error "GOODBYE: wrong arity"

def de_error : List PV → Except String Msg
  | typ :: request :: details :: err :: tail => do
      let t ← as_integer typ
      let r ← as_id request
      let d ← as_dict details
      let e ← as_str err
      let (a, kw) ← unpackTrailing tail
      .ok (Msg.Error t r d e a kw)
  | _ => .error "ERROR: wrong arity"

def de_publish : List PV → Except String Msg
  | request :: options :: topic :: tail => do
      let r ← as_id request
      let o ← as_dict options
      let t ← as_str topic
      let (a, kw) ← unpackTrailing tail
      .ok (Msg.Publish r o t a kw)
  | _ => .error "PUBLISH: wrong arity"

def de_published : List PV → Except String Msg
  | [request, publication] => do
      .ok (Msg.Published (← as_id request) (← as_id publication))
  | _ => .error "PUBLISHED: wrong arity"

def de_subscribe : List PV → Except String Msg
  | [request, options, topic] => do
      .ok (Msg.Subscribe (← as_id request) (← as_dict options) (← as_str topic))
  | _ => .error "SUBSCRIBE: wrong arity"

def de_subscribed : List PV → Except String Msg
  | [request, subscription] => do
      .ok (Msg.Subscribed (← as_id request) (← as_id subscription))
  | _ => .error "SUBSCRIBED: wrong arity"

def de_unsubscribe : List PV → Except String Msg
  | [request, subscription] => do
      .ok (Msg.Unsubscribe (← as_id request) (← as_id subscription))
  | _ => .error "UNSUBSCRIBE: wrong arity"

def de_unsubscribed : List PV → Except String Msg
  | [request] => do
      .ok (Msg.Unsubscribed (← as_id request))
  | _ => .error "UNSUBSCRIBED: wrong arity"

def de_event : List PV → Except String Msg
  | subscription :: publication :: details :: tail => do
      let s ← as_id subscription
      let p ← as_id publication
      let d ← as_dict details
      let (a, kw) ← unpackTrailing tail
      .ok (Msg.Event s p d a kw)
  | _ => .error "EVENT: wrong arity"

def de_call : List PV → Except String Msg
  | request :: options :: procedure :: tail => do
      let r ← as_id request
      let o ← as_dict options
      let p ← as_str procedure
      let (a, kw) ← unpackTrailing tail
      .ok (Msg.Call r o p a kw)
  | _ => .error "CALL: wrong arity"

def de_result : List PV → Except String Msg
  | request :: details :: tail => do
      let r ← as_id request
      let d ← as_dict details
      let (a, kw) ← unpackTrailing tail
      .ok (Msg.Result r d a kw)
  | _ => .error "RESULT: wrong arity"

def de_register : List PV → Except String Msg
  | [request, options, procedure] => do
      .ok (Msg.Register (← as_id request) (← as_dict options) (← as_str procedure))
  | _ => .error "REGISTER: wrong arity"

def de_registered : List PV → Except String Msg
  | [request, registration] => do
      .ok (Msg.Registered (← as_id request) (← as_id registration))
  | _ => .error "REGISTERED: wrong arity"

def de_unregister : List PV → Except String Msg
  | [request, registration] => do
      .ok (Msg.Unregister (← as_id request) (← as_id registration))
  | _ => .error "UNREGISTER: wrong arity"

def de_unregistered : List PV → Except String Msg
  | [request] => do
      .ok (Msg.Unregistered (← as_id request))
  | _ => .error "UNREGISTERED: wrong arity"

def de_invocation : List PV → Except String Msg
  | request :: registration :: details :: tail => do
      let r ← as_id request
      let g ← as_id registration
      let d ← as_dict details
      let (a, kw) ← unpackTrailing tail
      .ok (Msg.Invocation r g d a kw)
  | _ => .error "INVOCATION: wrong arity"

def de_yield : List PV → Except String Msg
  | request :: options :: tail => do
      let r ← as_id request
      let o ← as_dict options
      let (a, kw) ← unpackTrailing tail
      .ok (Msg.Yield r o a kw)
  | _ => .error "YIELD: wrong arity"

/-- `impl Deserialize for Msg` (`visit_seq`): read the message code, then
dispatch to the per-kind sequence reader; an unknown code is an error. -/
def unpack (v : List PV) : Except String Msg :=
  match v with
  | [] => .error "invalid length 0"
  | code :: rest => do
    let msg_id ← as_integer code
    if msg_id = HELLO_ID then de_hello rest
    else if msg_id = WELCOME_ID then de_welcome rest
    else if msg_id = ABORT_ID then de_abort rest
    else if msg_id = CHALLENGE_ID then de_challenge rest
    else if msg_id = AUTHENTICATE_ID then de_authenticate rest
    else if msg_id = GOODBYE_ID then de_goodbye rest
    else if msg_id = ERROR_ID then de_error rest
    else if msg_id = PUBLISH_ID then de_publish rest
    else if msg_id = PUBLISHED_ID then de_published rest
    else if msg_id = SUBSCRIBE_ID then de_subscribe rest
    else if msg_id = SUBSCRIBED_ID then de_subscribed rest
    else if msg_id = UNSUBSCRIBE_ID then de_unsubscribe rest
    else if msg_id = UNSUBSCRIBED_ID then de_unsubscribed rest
    else if msg_id = EVENT_ID then de_event rest
    else if msg_id = CALL_ID then de_call rest
    else if msg_id = RESULT_ID then de_result rest
    else if msg_id = REGISTER_ID then de_register rest
    else if msg_id = REGISTERED_ID then de_registered rest
    else if msg_id = UNREGISTER_ID then de_unregister rest
    else if msg_id = UNREGISTERED_ID then de_unregistered rest
    else if msg_id = INVOCATION_ID then de_invocation rest
    else if msg_id = YIELD_ID then de_yield rest
    else .error "unknown message id"

/-- The canonical trailing fields after a round trip: when `arguments_kw`
is present the wire carries an args array (empty if `arguments` was
absent), so decoding yields `some` in the first component. -/
def canonTrailing (a : Option WampArgs) (kw : Option WampKwArgs) :
    Option WampArgs × Option WampKwArgs :=
  match kw with
  | some k => (some (a.getD []), some k)
  | none => (a, none)

/-- The message produced by unpacking the packed form of `m`: dict values
canonicalized and, where `arguments_kw` is present without `arguments`, an
empty `arguments` list materialized. -/
def canonMsg : Msg → Msg
  | .Hello realm details => .Hello realm (canonEntries details)
  | .Welcome session details => .Welcome session (canonEntries details)
  | .Abort details reason => .Abort (canonEntries details) reason
  | .Challenge m extra => .Challenge m (canonEntries extra)
  | .Authenticate signature extra => .Authenticate signature (canonEntries extra)
  | .Goodbye details reason => .Goodbye (canonEntries details) reason
  | .Error typ request details err a kw =>
      .Error typ request (canonEntries details) err
        (canonTrailing a kw).1 (canonTrailing a kw).2
  | .Publish request options topic a kw =>
      .Publish request (canonEntries options) topic
        (canonTrailing a kw).1 (canonTrailing a kw).2
  | .Published request publication => .Published request publication
  | .Subscribe request options topic => .Subscribe request (canonEntries options) topic
  | .Subscribed request subscription => .Subscribed request subscription
  | .Unsubscribe request subscription => .Unsubscribe request subscription
  | .Unsubscribed request => .Unsubscribed request
  | .Event subscription publication details a kw =>
      .Event subscription publication (canonEntries details)
        (canonTrailing a kw).1 (canonTrailing a kw).2
  | .Call request options procedure a kw =>
      .Call request (canonEntries options) procedure
        (canonTrailing a kw).1 (canonTrailing a kw).2
  | .Result request details a kw =>
      .Result request (canonEntries details)
        (canonTrailing a kw).1 (canonTrailing a kw).2
  | .Register request options procedure => .Register request (canonEntries options) procedure
  | .Registered request registration => .Registered request registration
  | .Unregister request registration => .Unregister request registration
  | .Unregistered request => .Unregistered request
  | .Invocation request registration details a kw =>
      .Invocation request registration (canonEntries details)
        (canonTrailing a kw).1 (canonTrailing a kw).2
  | .Yield request options a kw =>
      .Yield request (canonEntries options)
        (canonTrailing a kw).1 (canonTrailing a kw).2

/-! Round-trip lemmas for the value layer. -/

mutual
theorem decode_encode_arg : (a : Arg) → decodeArg (encodeArg a) = canonArg a
  | .Uri _ => rfl
  | .Id i => by simp [encodeArg, decodeArg, canonArg, i.2]
  | .Integer _ => by simp [encodeArg, decodeArg, canonArg]
  | .String _ => rfl
  | .Bool _ => rfl
  | .Dict d => by simp [encodeArg, decodeArg, canonArg, decode_encode_entries d]
  | .List l => by simp [encodeArg, decodeArg, canonArg, decode_encode_list l]
  | .None => rfl

theorem decode_encode_entries : (l : List (String × Arg)) →
    decodeEntries (encodeEntries l) = canonEntries l
  | [] => rfl
  | (k, v) :: rest => by
      simp [encodeEntries, decodeEntries, canonEntries,
        decode_encode_arg v, decode_encode_entries rest]

theorem decode_encode_list : (l : List Arg) →
    decodeList (encodeList l) = canonList l
  | [] => rfl
  | a :: rest => by
      simp [encodeList, decodeList, canonList,
        decode_encode_arg a, decode_encode_list rest]
end

mutual
theorem encode_canon_arg : (a : Arg) → encodeArg (canonArg a) = encodeArg a
  | .Uri _ => rfl
  | .Id _ => rfl
  | .Integer n => by
      by_cases h : 1 ≤ n <;> simp [encodeArg, canonArg, h]
  | .String _ => rfl
  | .Bool _ => rfl
  | .Dict d => by simp [encodeArg, canonArg, encode_canon_entries d]
  | .List l => by simp [encodeArg, canonArg, encode_canon_list l]
  | .None => rfl

theorem encode_canon_entries : (l : List (String × Arg)) →
    encodeEntries (canonEntries l) = encodeEntries l
  | [] => rfl
  | (k, v) :: rest => by
      simp [encodeEntries, canonEntries, encode_canon_arg v, encode_canon_entries rest]

theorem encode_canon_list : (l : List Arg) →
    encodeList (canonList l) = encodeList l
  | [] => rfl
  | a :: rest => by
      simp [encodeList, canonList, encode_canon_arg a, encode_canon_list rest]
end

theorem as_dict_encode (d : WampDict) :
    as_dict (.obj (encodeEntries d)) = .ok (canonEntries d) := by
  simp [as_dict, decode_encode_entries d]

theorem as_id_num (i : WampId) : as_id (.num i.val) = .ok i := by
  simp [as_id, i.2]

theorem as_auth_method_as_str (m : AuthMethod) :
    as_auth_method (.str m.as_str) = .ok m := by
  cases m <;> simp [as_auth_method, AuthMethod.as_str, AuthMethod.from_str]

theorem unpackTrailing_packTrailing (a : Option WampArgs) (kw : Option WampKwArgs) :
    unpackTrailing (packTrailing a kw) = .ok (canonTrailing a kw) := by
  cases kw <;> cases a <;>
    simp [packTrailing, unpackTrailing, canonTrailing, as_opt_args, as_opt_kwargs,
      Bind.bind, Except.bind]

theorem packTrailing_canonTrailing (a : Option WampArgs) (kw : Option WampKwArgs) :
    packTrailing (canonTrailing a kw).1 (canonTrailing a kw).2 = packTrailing a kw := by
  cases kw <;> cases a <;> simp [packTrailing, canonTrailing]

/-- C2 (counterexample): unpack ∘ pack is not the identity on a message in
which `arguments_kw` is present and `arguments` is absent — a CALL packed
with kwargs only comes back with `arguments = some []`, because the packer
emits an empty args array and the decoder keeps it. -/
theorem c2_roundtrip_counterexample :
    unpack (pack (Msg.Call ⟨1, le_refl 1⟩ [] "p" none (some []))) ≠
      Except.ok (Msg.Call ⟨1, le_refl 1⟩ [] "p" none (some [])) := by
  have h : unpack (pack (Msg.Call ⟨1, le_refl 1⟩ [] "p" none (some []))) =
      Except.ok (Msg.Call ⟨1, le_refl 1⟩ [] "p" (some []) (some [])) := rfl
  rw [h]
  intro hcontra
  injection hcontra with hmsg
  injection hmsg with h1 h2 h3 h4 h5
  exact Option.noConfusion h4

/-- C2 (amended): for every message `m`, unpacking the packed tuple of `m`
yields the *canonical* form of `m` — same variant, dict values collapsed by
the untagged decoder (`String s ↦ Uri s`, nonzero `Integer n ↦ Id n`) and,
when `arguments_kw` is present without `arguments`, the empty `arguments`
array materialized — and pack is invariant under canonicalization, so
pack ∘ unpack is the identity on every packed (normalized) encoding. -/
theorem c2_roundtrip_canonical (m : Msg) :
    unpack (pack m) = .ok (canonMsg m) ∧ pack (canonMsg m) = pack m := by
  constructor
  · cases m <;>
      simp [pack, unpack, canonMsg, de_hello, de_welcome, de_abort, de_challenge,
        de_authenticate, de_goodbye, de_error, de_publish, de_published,
        de_subscribe, de_subscribed, de_unsubscribe, de_unsubscribed, de_event,
        de_call, de_result, de_register, de_registered, de_unregister,
        de_unregistered, de_invocation, de_yield,
        HELLO_ID, WELCOME_ID, ABORT_ID, CHALLENGE_ID, AUTHENTICATE_ID,
        GOODBYE_ID, ERROR_ID, PUBLISH_ID, PUBLISHED_ID, SUBSCRIBE_ID,
        SUBSCRIBED_ID, UNSUBSCRIBE_ID, UNSUBSCRIBED_ID, EVENT_ID, CALL_ID,
        RESULT_ID, REGISTER_ID, REGISTERED_ID, UNREGISTER_ID, UNREGISTERED_ID,
        INVOCATION_ID, YIELD_ID,
        as_integer, as_str, as_id_num, as_dict_encode, as_auth_method_as_str,
        unpackTrailing_packTrailing, Bind.bind, Except.bind]
  · cases m <;>
      simp [pack, canonMsg, encode_canon_entries, packTrailing_canonTrailing]

/-! ## The session engine (`src/core/mod.rs`, `send.rs`, `recv.rs`)

The engine owns hash tables keyed by `WampId`; they are modelled as
association lists (`alookup`/`aerase`/`ainsert` mirror `get`/`remove`/
`insert`) and the `pending_requests` `HashSet` as a duplicate-free list
(`sinsert`/`sremove`). One-shot reply channels and RPC handler closures are
opaque to the engine and modelled as tokens (`Nat`); completing a channel or
enqueuing work is recorded as an emitted `Effect`. Each fresh event queue
created by `mpsc::unbounded_channel()` is a distinct object, modelled by
drawing tokens from the monotone counter `next_queue`. The random draws of
`rand::random::<u64>()` are threaded in as an explicit list, and the
transport (`Core::send`) either succeeds or fails with a given error. -/

def alookup {κ α : Type} [DecidableEq κ] (k : κ) : List (κ × α) → Option α
  | [] => none
  | p :: rest => if p.1 = k then some p.2 else alookup k rest

def aerase {κ α : Type} [DecidableEq κ] (k : κ) : List (κ × α) → List (κ × α)
  | [] => []
  | p :: rest => if p.1 = k then aerase k rest else p :: aerase k rest

def ainsert {κ α : Type} [DecidableEq κ] (k : κ) (v : α) (l : List (κ × α)) :
    List (κ × α) :=
  (k, v) :: aerase k l

/-- `HashSet::insert` (no-op when the element is present). -/
def sinsert (x : WampId) (l : List WampId) : List WampId :=
  if x ∈ l then l else x :: l

/-- `HashSet::remove`. -/
def sremove (x : WampId) : List WampId → List WampId
  | [] => []
  | y :: rest => if y = x then sremove x rest else y :: sremove x rest

/-- `WampId::generate` (`src/common.rs` lines 40-45): a random `u64` masked
to 53 bits, plus one — always in `[1, 2^53]`. -/
def generate (r : Nat) : WampId :=
  ⟨((r % 2 ^ 64) &&& (2 ^ 53 - 1)) + 1, Nat.le_add_left 1 _⟩

/-- `Core::create_request` (`src/core/mod.rs` lines 394-401): draw IDs until
one inserts freshly into `pending_requests`; the (infinite) random stream is
modelled by the list `draws`, and exhausting it returns `none`. -/
def create_request (pending : List WampId) : List Nat → Option (WampId × List WampId)
  | [] => none
  | r :: rest =>
    let request := generate r
    if request ∈ pending then create_request pending rest
    else some (request, request :: pending)

/-- The error taxonomy (`src/error.rs`), payloads elided where opaque. -/
inductive WampError
  | UnknownError (e : String)
  | ConnectionError
  | SerializationError
  | ProtocolError (e : String)
  | ClientDied
  | RequestIdCollision
  | ServerError (uri : String) (details : WampDict)

/-- `Status` (`src/core/mod.rs`): whether the event loop keeps running. -/
inductive Status
  | ok
  | shutdown

/-- Values delivered on the one-shot reply channels. -/
inductive ReplyVal
  | subQueue (sub : WampId) (queue : Nat)
  | transact (id : Option WampId)
  | registered (rpc : WampId)
  | callResult (arguments : Option WampArgs) (arguments_kw : Option WampKwArgs)

/-- Observable actions of a handler: a message handed to the transport, a
reply-channel completion, an event pushed on a subscription queue, an
invocation future queued on the RPC work channel. -/
inductive Effect
  | sent (m : Msg)
  | reply (chan : Nat) (out : Except WampError ReplyVal)
  | push (queue : Nat) (publication : WampId) (details : WampDict)
      (arguments : Option WampArgs) (arguments_kw : Option WampKwArgs)
  | rpcWork (func : Nat) (request : WampId)
      (arguments : Option WampArgs) (arguments_kw : Option WampKwArgs)

/-- The mutable session tables of `Core` (`src/core/mod.rs` lines 65-96). -/
structure CoreSt where
  valid_session : Bool
  pending_requests : List WampId
  pending_transactions : List (WampId × Nat)
  pending_sub : List (WampId × Nat)
  subscriptions : List (WampId × Nat)
  pending_register : List (WampId × (Nat × Nat))
  rpc_endpoints : List (WampId × Nat)
  pending_call : List (WampId × Nat)
  next_queue : Nat

/-- Result of one handler invocation. -/
structure StepOut where
  core : CoreSt
  status : Status
  effects : List Effect

/-- `Msg::request_id` (`src/message.rs` lines 152-178). -/
def Msg.request_id : Msg → Option WampId
  | .Error _ request _ _ _ _ => some request
  | .Publish request _ _ _ _ => some request
  | .Published request _ => some request
  | .Subscribe request _ _ => some request
  | .Subscribed request _ => some request
  | .Unsubscribe request _ => some request
  | .Unsubscribed request => some request
  | .Call request _ _ _ _ => some request
  | .Result request _ _ _ => some request
  | .Register request _ _ => some request
  | .Registered request _ => some request
  | .Unregister request _ => some request
  | .Unregistered request => some request
  | .Yield request _ _ _ => some request
  | .Hello _ _ => none
  | .Welcome _ _ => none
  | .Abort _ _ => none
  | .Challenge _ _ => none
  | .Authenticate _ _ => none
  | .Goodbye _ _ => none
  | .Event _ _ _ _ _ => none
  | .Invocation _ _ _ _ _ => none

/-! ### Outbound command handlers (`src/core/send.rs`)

Each handler takes the reply-channel token `res`, the stream of random
draws, and `sendErr` — `none` when `core.send` succeeds, `some e` when
serializing-and-sending fails with `e`. `none` overall means the model ran
out of draws inside `create_request`. -/

/-- `send::subscribe` (`src/core/send.rs` lines 198-217). The SUBSCRIBE
message is always sent with `options: WampDict::new()` — the empty dict. -/
def send_subscribe (core : CoreSt) (topic : String) (res : Nat)
    (draws : List Nat) (sendErr : Option WampError) : Option StepOut :=
  match create_request core.pending_requests draws with
  | none => none
  | some (request, pending1) =>
    let core := { core with pending_requests := pending1 }
    match sendErr with
    | some e =>
      some ⟨{ core with pending_requests := sremove request core.pending_requests },
        .shutdown, [.reply res (.error e)]⟩
    | none =>
      some ⟨{ core with pending_sub := ainsert request res core.pending_sub },
        .ok, [.sent (Msg.Subscribe request [] topic)]⟩

/-- `send::unsubscribe` (`src/core/send.rs` lines 219-252): the subscription
entry is removed from `subscriptions` *before* the UNSUBSCRIBE is sent; an
unknown `sub_id` fails the reply and keeps the engine running. -/
def send_unsubscribe (core : CoreSt) (sub_id : WampId) (res : Nat)
    (draws : List Nat) (sendErr : Option WampError) : Option StepOut :=
  match alookup sub_id core.subscriptions with
  | none =>
    some ⟨core, .ok,
      [.reply res (.error (.UnknownError "Tried to unsubscribe from unknown sub_id"))]⟩
  | some _ =>
    let core := { core with subscriptions := aerase sub_id core.subscriptions }
    match create_request core.pending_requests draws with
    | none => none
    | some (request, pending1) =>
      let core := { core with pending_requests := pending1 }
      match sendErr with
      | some e =>
        some ⟨{ core with pending_requests := sremove request core.pending_requests },
          .shutdown, [.reply res (.error e)]⟩
      | none =>
        some ⟨{ core with pending_transactions := ainsert request res core.pending_transactions },
          .ok, [.sent (Msg.Unsubscribe request sub_id)]⟩

/-- `send::publish` (`src/core/send.rs` lines 254-282). -/
def send_publish (core : CoreSt) (uri : String) (options : WampDict)
    (arguments : Option WampArgs) (arguments_kw : Option WampKwArgs) (res : Nat)
    (draws : List Nat) (sendErr : Option WampError) : Option StepOut :=
  match create_request core.pending_requests draws with
  | none => none
  | some (request, pending1) =>
    let core := { core with pending_requests := pending1 }
    match sendErr with
    | some e =>
      some ⟨{ core with pending_requests := sremove request core.pending_requests },
        .shutdown, [.reply res (.error e)]⟩
    | none =>
      some ⟨{ core with pending_transactions := ainsert request res core.pending_transactions },
        .ok, [.sent (Msg.Publish request options uri arguments arguments_kw)]⟩

/-- `send::register` (`src/core/send.rs` lines 284-307); the REGISTER is
sent with an empty options dict and `func_ptr` is parked in
`pending_register` until the server confirms. -/
def send_register (core : CoreSt) (uri : String) (res : Nat) (func_ptr : Nat)
    (draws : List Nat) (sendErr : Option WampError) : Option StepOut :=
  match create_request core.pending_requests draws with
  | none => none
  | some (request, pending1) =>
    let core := { core with pending_requests := pending1 }
    match sendErr with
    | some e =>
      some ⟨{ core with pending_requests := sremove request core.pending_requests },
        .shutdown, [.reply res (.error e)]⟩
    | none =>
      some ⟨{ core with pending_register := ainsert request (func_ptr, res) core.pending_register },
        .ok, [.sent (Msg.Register request [] uri)]⟩

/-- `send::unregister` (`src/core/send.rs` lines 309-342): mirror image of
`unsubscribe` on `rpc_endpoints`. -/
def send_unregister (core : CoreSt) (rpc_id : WampId) (res : Nat)
    (draws : List Nat) (sendErr : Option WampError) : Option StepOut :=
  match alookup rpc_id core.rpc_endpoints with
  | none =>
    some ⟨core, .ok,
      [.reply res (.error (.UnknownError "Tried to unregister RPC using invalid ID"))]⟩
  | some _ =>
    let core := { core with rpc_endpoints := aerase rpc_id core.rpc_endpoints }
    match create_request core.pending_requests draws with
    | none => none
    | some (request, pending1) =>
      let core := { core with pending_requests := pending1 }
      match sendErr with
      | some e =>
        some ⟨{ core with pending_requests := sremove request core.pending_requests },
          .shutdown, [.reply res (.error e)]⟩
      | none =>
        some ⟨{ core with pending_transactions := ainsert request res core.pending_transactions },
          .ok, [.sent (Msg.Unregister request rpc_id)]⟩

/-- `send::call` (`src/core/send.rs` lines 372-400). -/
def send_call (core : CoreSt) (uri : String) (options : WampDict)
    (arguments : Option WampArgs) (arguments_kw : Option WampKwArgs) (res : Nat)
    (draws : List Nat) (sendErr : Option WampError) : Option StepOut :=
  match create_request core.pending_requests draws with
  | none => none
  | some (request, pending1) =>
    let core := { core with pending_requests := pending1 }
    match sendErr with
    | some e =>
      some ⟨{ core with pending_requests := sremove request core.pending_requests },
        .shutdown, [.reply res (.error e)]⟩
    | none =>
      some ⟨{ core with pending_call := ainsert request res core.pending_call },
        .ok, [.sent (Msg.Call request options uri arguments arguments_kw)]⟩

/-! ### Inbound message handlers (`src/core/recv.rs`) -/

/-- `recv::subscribed`. -/
def recv_subscribed (core : CoreSt) (request sub_id : WampId) : StepOut :=
  match alookup request core.pending_sub with
  | none => ⟨core, .ok, []⟩
  | some res =>
    let core := { core with pending_sub := aerase request core.pending_sub }
    match alookup sub_id core.subscriptions with
    | some _ => ⟨core, .ok, []⟩
    | none =>
      ⟨{ core with
          subscriptions := ainsert sub_id core.next_queue core.subscriptions,
          next_queue := core.next_queue + 1 },
        .ok, [.reply res (.ok (.subQueue sub_id core.next_queue))]⟩

/-- `recv::unsubscribed`. -/
def recv_unsubscribed (core : CoreSt) (request : WampId) : StepOut :=
  match alookup request core.pending_transactions with
  | none => ⟨core, .ok, []⟩
  | some res =>
    ⟨{ core with pending_transactions := aerase request core.pending_transactions },
      .ok, [.reply res (.ok (.transact none))]⟩

/-- `recv::published`. -/
def recv_published (core : CoreSt) (request pub_id : WampId) : StepOut :=
  match alookup request core.pending_transactions with
  | none => ⟨core, .ok, []⟩
  | some res =>
    ⟨{ core with pending_transactions := aerase request core.pending_transactions },
      .ok, [.reply res (.ok (.transact (some pub_id)))]⟩

/-- `recv::event` (`src/core/recv.rs` lines 61-93): an EVENT whose
subscription ID is not in `subscriptions` is dropped; otherwise the payload
is pushed onto that subscription's queue. -/
def recv_event (core : CoreSt) (subscription publication : WampId)
    (details : WampDict) (arguments : Option WampArgs)
    (arguments_kw : Option WampKwArgs) : StepOut :=
  match alookup subscription core.subscriptions with
  | none => ⟨core, .ok, []⟩
  | some evt_queue =>
    ⟨core, .ok, [.push evt_queue publication details arguments arguments_kw]⟩

/-- `recv::registered`. -/
def recv_registered (core : CoreSt) (request rpc_id : WampId) : StepOut :=
  match alookup request core.pending_register with
  | none => ⟨core, .ok, []⟩
  | some (rpc_func, res) =>
    let core := { core with pending_register := aerase request core.pending_register }
    match alookup rpc_id core.rpc_endpoints with
    | some _ => ⟨core, .ok, []⟩
    | none =>
      ⟨{ core with rpc_endpoints := ainsert rpc_id rpc_func core.rpc_endpoints },
        .ok, [.reply res (.ok (.registered rpc_id))]⟩

/-- `recv::unregisterd` (sic). -/
def recv_unregistered (core : CoreSt) (request : WampId) : StepOut :=
  match alookup request core.pending_transactions with
  | none => ⟨core, .ok, []⟩
  | some res =>
    ⟨{ core with pending_transactions := aerase request core.pending_transactions },
      .ok, [.reply res (.ok (.transact none))]⟩

/-- `recv::invocation`. -/
def recv_invocation (core : CoreSt) (request registration : WampId)
    (_details : WampDict) (arguments : Option WampArgs)
    (arguments_kw : Option WampKwArgs) : StepOut :=
  match alookup registration core.rpc_endpoints with
  | none => ⟨core, .ok, []⟩
  | some rpc_func =>
    ⟨core, .ok, [.rpcWork rpc_func request arguments arguments_kw]⟩

/-- `recv::call_result`. -/
def recv_call_result (core : CoreSt) (request : WampId) (_details : WampDict)
    (arguments : Option WampArgs) (arguments_kw : Option WampKwArgs) : StepOut :=
  match alookup request core.pending_call with
  | none => ⟨core, .ok, []⟩
  | some res =>
    ⟨{ core with pending_call := aerase request core.pending_call },
      .ok, [.reply res (.ok (.callResult arguments arguments_kw))]⟩

/-- `recv::goodbye`. -/
def recv_goodbye (core : CoreSt) (_details : WampDict) (reason : String) : StepOut :=
  if !core.valid_session && reason = "wamp.close.goodbye_and_out" then
    ⟨core, .ok, []⟩
  else
    ⟨core, .shutdown, [.sent (Msg.Goodbye [] "wamp.close.goodbye_and_out")]⟩

/-- `recv::abort`. -/
def recv_abort (core : CoreSt) (_details : WampDict) (_reason : String) : StepOut :=
  ⟨core, .shutdown, []⟩

/-- `recv::error`: route the ERROR by its embedded request type. -/
def recv_error (core : CoreSt) (typ : Nat) (request : WampId)
    (details : WampDict) (err : String) (_arguments : Option WampArgs)
    (_arguments_kw : Option WampKwArgs) : StepOut :=
  if typ = SUBSCRIBE_ID then
    match alookup request core.pending_sub with
    | none => ⟨core, .ok, []⟩
    | some res =>
      ⟨{ core with pending_sub := aerase request core.pending_sub },
        .ok, [.reply res (.error (.ServerError err details))]⟩
  else if typ = REGISTER_ID then
    match alookup request core.pending_register with
    | none => ⟨core, .ok, []⟩
    | some (_, res) =>
      ⟨{ core with pending_register := aerase request core.pending_register },
        .ok, [.reply res (.error (.ServerError err details))]⟩
  else if typ = CALL_ID then
    match alookup request core.pending_call with
    | none => ⟨core, .ok, []⟩
    | some res =>
      ⟨{ core with pending_call := aerase request core.pending_call },
        .ok, [.reply res (.error (.ServerError err details))]⟩
  else if typ = PUBLISH_ID ∨ typ = UNSUBSCRIBE_ID ∨ typ = UNREGISTER_ID then
    match alookup request core.pending_transactions with
    | none => ⟨core, .ok, []⟩
    | some res =>
      ⟨{ core with pending_transactions := aerase request core.pending_transactions },
        .ok, [.reply res (.error (.ServerError err details))]⟩
  else ⟨core, .ok, []⟩

/-- The dispatch `match` of `Core::handle_peer_msg` (`src/core/mod.rs`
lines 225-294); unhandled kinds are logged and dropped. -/
def handle_msg_inner (core : CoreSt) (msg : Msg) : StepOut :=
  match msg with
  | .Subscribed request subscription => recv_subscribed core request subscription
  | .Unsubscribed request => recv_unsubscribed core request
  | .Published request publication => recv_published core request publication
  | .Event s p d a kw => recv_event core s p d a kw
  | .Registered request registration => recv_registered core request registration
  | .Unregistered request => recv_unregistered core request
  | .Invocation request registration details a kw =>
      recv_invocation core request registration details a kw
  | .Result request details a kw => recv_call_result core request details a kw
  | .Goodbye details reason => recv_goodbye core details reason
  | .Abort details reason => recv_abort core details reason
  | .Error typ request details err a kw =>
      recv_error core typ request details err a kw
  | _ => ⟨core, .ok, []⟩

/-- `Core::handle_peer_msg` (`src/core/mod.rs` lines 214-224): a message
that carries a request ID is dropped unless that ID can be removed from
`pending_requests`. -/
def handle_peer_msg (core : CoreSt) (msg : Msg) : StepOut :=
  match msg.request_id with
  | some request =>
    if request ∈ core.pending_requests then
      handle_msg_inner
        { core with pending_requests := sremove request core.pending_requests } msg
    else ⟨core, .ok, []⟩
  | none => handle_msg_inner core msg

/-- The inbound half of `Core::event_loop`: process peer messages in order,
stopping when a handler asks for shutdown. -/
def run (core : CoreSt) : List Msg → CoreSt × List Effect
  | [] => (core, [])
  | m :: rest =>
    let s := handle_peer_msg core m
    match s.status with
    | .shutdown => (s.core, s.effects)
    | .ok =>
      let r := run s.core rest
      (r.1, s.effects ++ r.2)

/-! Small facts about the table operations. -/

theorem sremove_not_mem (x : WampId) :
    ∀ l : List WampId, x ∉ l → sremove x l = l := by
  intro l
  induction l with
  | nil => intro _; rfl
  | cons y rest ih =>
    intro h
    have hyx : y ≠ x := fun he => h (he ▸ List.mem_cons_self y rest)
    have hrest : x ∉ rest := fun hm => h (List.mem_cons_of_mem y hm)
    simp [sremove, hyx, ih hrest]

theorem sremove_cons_self (x : WampId) (l : List WampId) :
    sremove x (x :: l) = sremove x l := by
  simp [sremove]

theorem not_mem_sremove_self (x : WampId) :
    ∀ l : List WampId, x ∉ sremove x l := by
  intro l
  induction l with
  | nil => simp [sremove]
  | cons y rest ih =>
    by_cases hyx : y = x
    · simp [sremove, hyx, ih]
    · simp [sremove, hyx]
      exact ⟨fun he => hyx he.symm, ih⟩

theorem alookup_aerase_self {κ α : Type} [DecidableEq κ] (k : κ) :
    ∀ l : List (κ × α), alookup k (aerase k l) = none := by
  intro l
  induction l with
  | nil => rfl
  | cons p rest ih =>
    by_cases h : p.1 = k
    · simp [aerase, h, ih]
    · simp [aerase, alookup, h, ih]

theorem alookup_mem {κ α : Type} [DecidableEq κ] (k : κ) (v : α) :
    ∀ l : List (κ × α), alookup k l = some v → (k, v) ∈ l := by
  intro l
  induction l with
  | nil => intro h; simp [alookup] at h
  | cons p rest ih =>
    intro h
    by_cases hk : p.1 = k
    · simp [alookup, hk] at h
      have : (k, v) = p := by
        cases p
        simp at hk h ⊢
        exact ⟨hk.symm, h.symm⟩
      exact this ▸ List.mem_cons_self _ _
    · simp [alookup, hk] at h
      exact List.mem_cons_of_mem p (ih h)

theorem mem_aerase {κ α : Type} [DecidableEq κ] (k : κ) (p : κ × α) :
    ∀ l : List (κ × α), p ∈ aerase k l → p ∈ l ∧ p.1 ≠ k := by
  intro l
  induction l with
  | nil => intro h; simp [aerase] at h
  | cons q rest ih =>
    intro h
    by_cases hk : q.1 = k
    · simp only [aerase, hk, if_pos rfl] at h
      obtain ⟨hm, hne⟩ := ih h
      exact ⟨List.mem_cons_of_mem q hm, hne⟩
    · simp only [aerase, if_neg hk] at h
      rcases List.mem_cons.mp h with h | h
      · subst h
        exact ⟨List.mem_cons_self _ _, hk⟩
      · obtain ⟨hm, hne⟩ := ih h
        exact ⟨List.mem_cons_of_mem q hm, hne⟩

/-- What a successful `create_request` returns: a draw that was not pending,
now inserted. -/
theorem create_request_spec (pending : List WampId) :
    ∀ (draws : List Nat) (request : WampId) (pending1 : List WampId),
      create_request pending draws = some (request, pending1) →
      request ∉ pending ∧ pending1 = request :: pending := by
  intro draws
  induction draws with
  | nil => intro request pending1 h; simp [create_request] at h
  | cons r rest ih =>
    intro request pending1 h
    by_cases hm : generate r ∈ pending
    · simp only [create_request, if_pos hm] at h
      exact ih request pending1 h
    · simp only [create_request, if_neg hm] at h
      obtain ⟨h1, h2⟩ := Prod.mk.injEq .. ▸ Option.some.injEq .. ▸ h
      exact h1 ▸ h2 ▸ ⟨hm, rfl⟩

/-- C3: every ID returned by `WampId::generate` lies in `[1, 2^53]`, and a
request ID handed out by `Core::create_request` is never already a member of
`pending_requests` at the moment it is inserted — a colliding draw is
skipped and replaced by the next draw. -/
theorem c3_generated_ids :
    (∀ r : Nat, 1 ≤ (generate r).val ∧ (generate r).val ≤ 2 ^ 53) ∧
    (∀ (pending : List WampId) (draws : List Nat) (request : WampId)
        (pending1 : List WampId),
      create_request pending draws = some (request, pending1) →
        request ∉ pending ∧ pending1 = request :: pending) := by
  constructor
  · intro r
    refine ⟨(generate r).2, ?_⟩
    have h : (r % 2 ^ 64) &&& (2 ^ 53 - 1) ≤ 2 ^ 53 - 1 := Nat.and_le_right
    have hv : (generate r).val = ((r % 2 ^ 64) &&& (2 ^ 53 - 1)) + 1 := rfl
    rw [hv]
    omega
  · exact create_request_spec

/-- Witness for C3 at the concrete draw 7 and empty pending set. -/
theorem c3_generated_ids_witness :
    ((generate 7).val ≤ 2 ^ 53) ∧ generate 7 ∉ ([] : List WampId) :=
  ⟨(c3_generated_ids.1 7).2,
    (c3_generated_ids.2 [] [7] (generate 7) [generate 7] rfl).1⟩

/-- What C4 requires after a send failure: `pending_requests` restored to
its pre-command contents (the fresh draw removed), no pending table touched,
the reply channel failed with the transport error, and the engine
terminating. -/
def rolled_back (core : CoreSt) (res : Nat) (e : WampError) (out : StepOut) : Prop :=
  out.core.pending_requests = core.pending_requests ∧
  out.core.pending_transactions = core.pending_transactions ∧
  out.core.pending_sub = core.pending_sub ∧
  out.core.pending_register = core.pending_register ∧
  out.core.pending_call = core.pending_call ∧
  out.effects = [.reply res (.error e)] ∧
  out.status = .shutdown

/-- An empty session state, used to instantiate witnesses. -/
def coreEmpty : CoreSt :=
  { valid_session := false
    pending_requests := []
    pending_transactions := []
    pending_sub := []
    subscriptions := []
    pending_register := []
    rpc_endpoints := []
    pending_call := []
    next_queue := 0 }

/-- C4: for each outbound command expecting a reply (subscribe, unsubscribe,
publish, register, unregister, call), a serialization-or-send failure makes
the handler remove the freshly drawn request ID from `pending_requests`
(restoring it exactly), leave every pending table unchanged (so no entry for
the draw remains anywhere), fail the command's reply channel with the error,
and return `Shutdown`. -/
theorem c4_send_failure :
    (∀ core topic res draws e out,
      send_subscribe core topic res draws (some e) = some out →
      rolled_back core res e out ∧
      ∀ rq p1, create_request core.pending_requests draws = some (rq, p1) →
        rq ∉ out.core.pending_requests) ∧
    (∀ core sub_id res draws e out,
      send_unsubscribe core sub_id res draws (some e) = some out →
      out.status = .shutdown → rolled_back core res e out ∧
      ∀ rq p1, create_request core.pending_requests draws = some (rq, p1) →
        rq ∉ out.core.pending_requests) ∧
    (∀ core uri options a kw res draws e out,
      send_publish core uri options a kw res draws (some e) = some out →
      rolled_back core res e out ∧
      ∀ rq p1, create_request core.pending_requests draws = some (rq, p1) →
        rq ∉ out.core.pending_requests) ∧
    (∀ core uri res fp draws e out,
      send_register core uri res fp draws (some e) = some out →
      rolled_back core res e out ∧
      ∀ rq p1, create_request core.pending_requests draws = some (rq, p1) →
        rq ∉ out.core.pending_requests) ∧
    (∀ core rpc_id res draws e out,
      send_unregister core rpc_id res draws (some e) = some out →
      out.status = .shutdown → rolled_back core res e out ∧
      ∀ rq p1, create_request core.pending_requests draws = some (rq, p1) →
        rq ∉ out.core.pending_requests) ∧
    (∀ core uri options a kw res draws e out,
      send_call core uri options a kw res draws (some e) = some out →
      rolled_back core res e out ∧
      ∀ rq p1, create_request core.pending_requests draws = some (rq, p1) →
        rq ∉ out.core.pending_requests) := by
  refine ⟨?_, ?_, ?_, ?_, ?_, ?_⟩
  · intro core topic res draws e out h
    unfold send_subscribe at h
    cases hcr : create_request core.pending_requests draws with
    | none => rw [hcr] at h; simp at h
    | some rp =>
      obtain ⟨request, pending1⟩ := rp
      rw [hcr] at h
      obtain ⟨hfresh, hp⟩ := create_request_spec _ _ _ _ hcr
      injection h with h
      subst hp
      have hpend : sremove request (request :: core.pending_requests) =
          core.pending_requests := by
        rw [sremove_cons_self]
        exact sremove_not_mem request core.pending_requests hfresh
      constructor
      · rw [← h]
        exact ⟨hpend, rfl, rfl, rfl, rfl, rfl, rfl⟩
      · intro rq p1 hcr2
        injection hcr2 with hcr2
        have hrq : rq = request := (Prod.mk.injEq .. ▸ hcr2).1.symm
        subst hrq
        rw [← h]
        exact not_mem_sremove_self rq _
  · intro core sub_id res draws e out h hst
    unfold send_unsubscribe at h
    cases hlk : alookup sub_id core.subscriptions with
    | none =>
      -- the invalid-id branch returns Status.ok, contradicting the shutdown
      -- hypothesis, so only the send-failure branch remains
      rw [hlk] at h
      injection h with h
      rw [← h] at hst
      simp at hst
    | some q =>
      rw [hlk] at h
      dsimp only at h
      cases hcr : create_request core.pending_requests draws with
      | none => rw [hcr] at h; simp at h
      | some rp =>
        obtain ⟨request, pending1⟩ := rp
        rw [hcr] at h
        obtain ⟨hfresh, hp⟩ := create_request_spec _ _ _ _ hcr
        injection h with h
        subst hp
        have hpend : sremove request (request :: core.pending_requests) =
            core.pending_requests := by
          rw [sremove_cons_self]
          exact sremove_not_mem request core.pending_requests hfresh
        constructor
        · rw [← h]
          exact ⟨hpend, rfl, rfl, rfl, rfl, rfl, rfl⟩
        · intro rq p1 hcr2
          injection hcr2 with hcr2
          have hrq : rq = request := (Prod.mk.injEq .. ▸ hcr2).1.symm
          subst hrq
          rw [← h]
          exact not_mem_sremove_self rq _
  · intro core uri options a kw res draws e out h
    unfold send_publish at h
    cases hcr : create_request core.pending_requests draws with
    | none => rw [hcr] at h; simp at h
    | some rp =>
      obtain ⟨request, pending1⟩ := rp
      rw [hcr] at h
      obtain ⟨hfresh, hp⟩ := create_request_spec _ _ _ _ hcr
      injection h with h
      subst hp
      have hpend : sremove request (request :: core.pending_requests) =
          core.pending_requests := by
        rw [sremove_cons_self]
        exact sremove_not_mem request core.pending_requests hfresh
      constructor
      · rw [← h]
        exact ⟨hpend, rfl, rfl, rfl, rfl, rfl, rfl⟩
      · intro rq p1 hcr2
        injection hcr2 with hcr2
        have hrq : rq = request := (Prod.mk.injEq .. ▸ hcr2).1.symm
        subst hrq
        rw [← h]
        exact not_mem_sremove_self rq _
  · intro core uri res fp draws e out h
    unfold send_register at h
    cases hcr : create_request core.pending_requests draws with
    | none => rw [hcr] at h; simp at h
    | some rp =>
      obtain ⟨request, pending1⟩ := rp
      rw [hcr] at h
      obtain ⟨hfresh, hp⟩ := create_request_spec _ _ _ _ hcr
      injection h with h
      subst hp
      have hpend : sremove request (request :: core.pending_requests) =
          core.pending_requests := by
        rw [sremove_cons_self]
        exact sremove_not_mem request core.pending_requests hfresh
      constructor
      · rw [← h]
        exact ⟨hpend, rfl, rfl, rfl, rfl, rfl, rfl⟩
      · intro rq p1 hcr2
        injection hcr2 with hcr2
        have hrq : rq = request := (Prod.mk.injEq .. ▸ hcr2).1.symm
        subst hrq
        rw [← h]
        exact not_mem_sremove_self rq _
  · intro core rpc_id res draws e out h hst
    unfold send_unregister at h
    cases hlk : alookup rpc_id core.rpc_endpoints with
    | none =>
      rw [hlk] at h
      injection h with h
      rw [← h] at hst
      simp at hst
    | some q =>
      rw [hlk] at h
      dsimp only at h
      cases hcr : create_request core.pending_requests draws with
      | none => rw [hcr] at h; simp at h
      | some rp =>
        obtain ⟨request, pending1⟩ := rp
        rw [hcr] at h
        obtain ⟨hfresh, hp⟩ := create_request_spec _ _ _ _ hcr
        injection h with h
        subst hp
        have hpend : sremove request (request :: core.pending_requests) =
            core.pending_requests := by
          rw [sremove_cons_self]
          exact sremove_not_mem request core.pending_requests hfresh
        constructor
        · rw [← h]
          exact ⟨hpend, rfl, rfl, rfl, rfl, rfl, rfl⟩
        · intro rq p1 hcr2
          injection hcr2 with hcr2
          have hrq : rq = request := (Prod.mk.injEq .. ▸ hcr2).1.symm
          subst hrq
          rw [← h]
          exact not_mem_sremove_self rq _
  · intro core uri options a kw res draws e out h
    unfold send_call at h
    cases hcr : create_request core.pending_requests draws with
    | none => rw [hcr] at h; simp at h
    | some rp =>
      obtain ⟨request, pending1⟩ := rp
      rw [hcr] at h
      obtain ⟨hfresh, hp⟩ := create_request_spec _ _ _ _ hcr
      injection h with h
      subst hp
      have hpend : sremove request (request :: core.pending_requests) =
          core.pending_requests := by
        rw [sremove_cons_self]
        exact sremove_not_mem request core.pending_requests hfresh
      constructor
      · rw [← h]
        exact ⟨hpend, rfl, rfl, rfl, rfl, rfl, rfl⟩
      · intro rq p1 hcr2
        injection hcr2 with hcr2
        have hrq : rq = request := (Prod.mk.injEq .. ▸ hcr2).1.symm
        subst hrq
        rw [← h]
        exact not_mem_sremove_self rq _

/-- Witness for C4: a failing subscribe on the empty state rolls back to the
empty state, fails the reply, and shuts down. -/
theorem c4_send_failure_witness :
    rolled_back coreEmpty 0 WampError.ConnectionError
      ⟨coreEmpty, .shutdown, [.reply 0 (.error WampError.ConnectionError)]⟩ :=
  (c4_send_failure.1 coreEmpty "t" 0 [1] WampError.ConnectionError
    ⟨coreEmpty, .shutdown, [.reply 0 (.error WampError.ConnectionError)]⟩ rfl).1

/-- C10: an Unsubscribe (resp. Unregister) command whose ID is not in the
local `subscriptions` (resp. `rpc_endpoints`) table fails its reply channel
immediately with an error, consumes no random draw, sends nothing on the
transport, leaves the whole state untouched, and returns `Ok` — the engine
keeps running. (The returned `StepOut` carries the *original* `core`, its
only effect is the failed reply, and its status is `Ok`, for every draw
stream and every transport outcome.) -/
theorem c10_invalid_unsubscribe_unregister :
    (∀ core sub_id res draws se,
      alookup sub_id core.subscriptions = none →
      send_unsubscribe core sub_id res draws se =
        some ⟨core, .ok,
          [.reply res (.error
            (.UnknownError "Tried to unsubscribe from unknown sub_id"))]⟩) ∧
    (∀ core rpc_id res draws se,
      alookup rpc_id core.rpc_endpoints = none →
      send_unregister core rpc_id res draws se =
        some ⟨core, .ok,
          [.reply res (.error
            (.UnknownError "Tried to unregister RPC using invalid ID"))]⟩) := by
  constructor
  · intro core sub_id res draws se h
    unfold send_unsubscribe
    rw [h]
  · intro core rpc_id res draws se h
    unfold send_unregister
    rw [h]

/-- Witness for C10 on the empty state. -/
theorem c10_invalid_unsubscribe_unregister_witness :
    send_unsubscribe coreEmpty ⟨1, le_refl 1⟩ 0 [] none =
      some ⟨coreEmpty, .ok,
        [.reply 0 (.error
          (.UnknownError "Tried to unsubscribe from unknown sub_id"))]⟩ :=
  c10_invalid_unsubscribe_unregister.1 coreEmpty ⟨1, le_refl 1⟩ 0 [] none rfl

/-- C6: an inbound message carrying a request ID (per `Msg::request_id`)
that is not in `pending_requests` is dropped whole — the returned state is
the unchanged `core` (every session table untouched) and no effect (reply,
push, rpc work or send) is produced; EVENT and INVOCATION report no request
ID and are dispatched to their handlers without the check. -/
theorem c6_unknown_request_id_dropped :
    (∀ core msg request, msg.request_id = some request →
      request ∉ core.pending_requests →
      handle_peer_msg core msg = ⟨core, .ok, []⟩) ∧
    (∀ s p d a kw, (Msg.Event s p d a kw).request_id = none ∧
      ∀ core, handle_peer_msg core (Msg.Event s p d a kw) =
        recv_event core s p d a kw) ∧
    (∀ r g d a kw, (Msg.Invocation r g d a kw).request_id = none ∧
      ∀ core, handle_peer_msg core (Msg.Invocation r g d a kw) =
        recv_invocation core r g d a kw) := by
  refine ⟨?_, ?_, ?_⟩
  · intro core msg request hid hmem
    unfold handle_peer_msg
    rw [hid]
    simp [hmem]
  · intro s p d a kw
    exact ⟨rfl, fun core => rfl⟩
  · intro r g d a kw
    exact ⟨rfl, fun core => rfl⟩

/-- Witness for C6: an unsolicited UNSUBSCRIBED on the empty state is
dropped without touching anything. -/
theorem c6_unknown_request_id_dropped_witness :
    handle_peer_msg coreEmpty (Msg.Unsubscribed ⟨1, le_refl 1⟩) =
      ⟨coreEmpty, .ok, []⟩ :=
  c6_unknown_request_id_dropped.1 coreEmpty (Msg.Unsubscribed ⟨1, le_refl 1⟩)
    ⟨1, le_refl 1⟩ rfl (by simp [coreEmpty])

/-! ### Late events after an unsubscribe (C5)

A queue token is *dead* once its subscription entry is gone: it no longer
appears in `subscriptions` and is below the freshness counter, so no later
`SUBSCRIBED` can resurrect it. Dead queues never receive pushes. -/

/-- `q` is not the queue of any current subscription and cannot be handed
out again. -/
def queue_free (q : Nat) (core : CoreSt) : Prop :=
  (∀ p ∈ core.subscriptions, p.2 ≠ q) ∧ q < core.next_queue

theorem recv_subscribed_queue_free (q : Nat) (core : CoreSt)
    (request sub_id : WampId) (h : queue_free q core) :
    queue_free q (recv_subscribed core request sub_id).core ∧
    ∀ pub d a kw, Effect.push q pub d a kw ∉ (recv_subscribed core request sub_id).effects := by
  obtain ⟨hsub, hq⟩ := h
  unfold recv_subscribed
  cases alookup request core.pending_sub with
  | none => exact ⟨⟨hsub, hq⟩, by simp⟩
  | some res =>
    dsimp only
    cases alookup sub_id core.subscriptions with
    | some _ => exact ⟨⟨hsub, hq⟩, by simp⟩
    | none =>
      refine ⟨⟨?_, Nat.lt_succ_of_lt hq⟩, by simp⟩
      intro p hp
      rcases List.mem_cons.mp hp with hp | hp
      · subst hp
        exact fun he => absurd he.symm (Nat.ne_of_lt hq)
      · exact hsub p (mem_aerase sub_id p _ hp).1

theorem recv_unsubscribed_queue_free (q : Nat) (core : CoreSt)
    (request : WampId) (h : queue_free q core) :
    queue_free q (recv_unsubscribed core request).core ∧
    ∀ pub d a kw, Effect.push q pub d a kw ∉ (recv_unsubscribed core request).effects := by
  obtain ⟨hsub, hq⟩ := h
  unfold recv_unsubscribed
  cases alookup request core.pending_transactions with
  | none => exact ⟨⟨hsub, hq⟩, by simp⟩
  | some res => exact ⟨⟨hsub, hq⟩, by simp⟩

theorem recv_published_queue_free (q : Nat) (core : CoreSt)
    (request publication : WampId) (h : queue_free q core) :
    queue_free q (recv_published core request publication).core ∧
    ∀ pub d a kw, Effect.push q pub d a kw ∉ (recv_published core request publication).effects := by
  obtain ⟨hsub, hq⟩ := h
  unfold recv_published
  cases alookup request core.pending_transactions with
  | none => exact ⟨⟨hsub, hq⟩, by simp⟩
  | some res => exact ⟨⟨hsub, hq⟩, by simp⟩

theorem recv_event_queue_free (q : Nat) (core : CoreSt) (s p : WampId)
    (d : WampDict) (a : Option WampArgs) (kw : Option WampKwArgs)
    (h : queue_free q core) :
    queue_free q (recv_event core s p d a kw).core ∧
    ∀ pub dd aa kk, Effect.push q pub dd aa kk ∉ (recv_event core s p d a kw).effects := by
  obtain ⟨hsub, hq⟩ := h
  unfold recv_event
  cases hlk : alookup s core.subscriptions with
  | none => exact ⟨⟨hsub, hq⟩, by simp⟩
  | some evt_queue =>
    refine ⟨⟨hsub, hq⟩, ?_⟩
    intro pub dd aa kk hmem
    simp at hmem
    exact hsub (s, evt_queue) (alookup_mem s evt_queue _ hlk) hmem.1.symm

theorem recv_registered_queue_free (q : Nat) (core : CoreSt)
    (request registration : WampId) (h : queue_free q core) :
    queue_free q (recv_registered core request registration).core ∧
    ∀ pub d a kw, Effect.push q pub d a kw ∉ (recv_registered core request registration).effects := by
  obtain ⟨hsub, hq⟩ := h
  unfold recv_registered
  cases alookup request core.pending_register with
  | none => exact ⟨⟨hsub, hq⟩, by simp⟩
  | some fr =>
    obtain ⟨rpc_func, res⟩ := fr
    dsimp only
    cases alookup registration core.rpc_endpoints with
    | some _ => exact ⟨⟨hsub, hq⟩, by simp⟩
    | none => exact ⟨⟨hsub, hq⟩, by simp⟩

theorem recv_unregistered_queue_free (q : Nat) (core : CoreSt)
    (request : WampId) (h : queue_free q core) :
    queue_free q (recv_unregistered core request).core ∧
    ∀ pub d a kw, Effect.push q pub d a kw ∉ (recv_unregistered core request).effects := by
  obtain ⟨hsub, hq⟩ := h
  unfold recv_unregistered
  cases alookup request core.pending_transactions with
  | none => exact ⟨⟨hsub, hq⟩, by simp⟩
  | some res => exact ⟨⟨hsub, hq⟩, by simp⟩

theorem recv_invocation_queue_free (q : Nat) (core : CoreSt)
    (request registration : WampId) (d : WampDict) (a : Option WampArgs)
    (kw : Option WampKwArgs) (h : queue_free q core) :
    queue_free q (recv_invocation core request registration d a kw).core ∧
    ∀ pub dd aa kk,
      Effect.push q pub dd aa kk ∉ (recv_invocation core request registration d a kw).effects := by
  obtain ⟨hsub, hq⟩ := h
  unfold recv_invocation
  cases alookup registration core.rpc_endpoints with
  | none => exact ⟨⟨hsub, hq⟩, by simp⟩
  | some rpc_func => exact ⟨⟨hsub, hq⟩, by simp⟩

theorem recv_call_result_queue_free (q : Nat) (core : CoreSt)
    (request : WampId) (d : WampDict) (a : Option WampArgs)
    (kw : Option WampKwArgs) (h : queue_free q core) :
    queue_free q (recv_call_result core request d a kw).core ∧
    ∀ pub dd aa kk,
      Effect.push q pub dd aa kk ∉ (recv_call_result core request d a kw).effects := by
  obtain ⟨hsub, hq⟩ := h
  unfold recv_call_result
  cases alookup request core.pending_call with
  | none => exact ⟨⟨hsub, hq⟩, by simp⟩
  | some res => exact ⟨⟨hsub, hq⟩, by simp⟩

theorem recv_goodbye_queue_free (q : Nat) (core : CoreSt) (d : WampDict)
    (reason : String) (h : queue_free q core) :
    queue_free q (recv_goodbye core d reason).core ∧
    ∀ pub dd aa kk, Effect.push q pub dd aa kk ∉ (recv_goodbye core d reason).effects := by
  obtain ⟨hsub, hq⟩ := h
  unfold recv_goodbye
  by_cases hc : (!core.valid_session && reason = "wamp.close.goodbye_and_out") = true
  · rw [if_pos hc]
    exact ⟨⟨hsub, hq⟩, by simp⟩
  · rw [if_neg hc]
    exact ⟨⟨hsub, hq⟩, by simp⟩

theorem recv_error_queue_free (q : Nat) (core : CoreSt) (typ : Nat)
    (request : WampId) (d : WampDict) (err : String) (a : Option WampArgs)
    (kw : Option WampKwArgs) (h : queue_free q core) :
    queue_free q (recv_error core typ request d err a kw).core ∧
    ∀ pub dd aa kk,
      Effect.push q pub dd aa kk ∉ (recv_error core typ request d err a kw).effects := by
  obtain ⟨hsub, hq⟩ := h
  unfold recv_error
  by_cases h1 : typ = SUBSCRIBE_ID
  · rw [if_pos h1]
    cases alookup request core.pending_sub with
    | none => exact ⟨⟨hsub, hq⟩, by simp⟩
    | some res => exact ⟨⟨hsub, hq⟩, by simp⟩
  · rw [if_neg h1]
    by_cases h2 : typ = REGISTER_ID
    · rw [if_pos h2]
      cases alookup request core.pending_register with
      | none => exact ⟨⟨hsub, hq⟩, by simp⟩
      | some fr =>
        obtain ⟨rpc_func, res⟩ := fr
        exact ⟨⟨hsub, hq⟩, by simp⟩
    · rw [if_neg h2]
      by_cases h3 : typ = CALL_ID
      · rw [if_pos h3]
        cases alookup request core.pending_call with
        | none => exact ⟨⟨hsub, hq⟩, by simp⟩
        | some res => exact ⟨⟨hsub, hq⟩, by simp⟩
      · rw [if_neg h3]
        by_cases h4 : typ = PUBLISH_ID ∨ typ = UNSUBSCRIBE_ID ∨ typ = UNREGISTER_ID
        · rw [if_pos h4]
          cases alookup request core.pending_transactions with
          | none => exact ⟨⟨hsub, hq⟩, by simp⟩
          | some res => exact ⟨⟨hsub, hq⟩, by simp⟩
        · rw [if_neg h4]
          exact ⟨⟨hsub, hq⟩, by simp⟩

theorem handle_msg_inner_queue_free (q : Nat) (core : CoreSt) (msg : Msg)
    (h : queue_free q core) :
    queue_free q (handle_msg_inner core msg).core ∧
    ∀ pub d a kw, Effect.push q pub d a kw ∉ (handle_msg_inner core msg).effects := by
  cases msg with
  | Subscribed request sub_id => exact recv_subscribed_queue_free q core request sub_id h
  | Unsubscribed request => exact recv_unsubscribed_queue_free q core request h
  | Published request publication => exact recv_published_queue_free q core request publication h
  | Event s p d a kw => exact recv_event_queue_free q core s p d a kw h
  | Registered request registration => exact recv_registered_queue_free q core request registration h
  | Unregistered request => exact recv_unregistered_queue_free q core request h
  | Invocation request registration d a kw =>
      exact recv_invocation_queue_free q core request registration d a kw h
  | Result request d a kw => exact recv_call_result_queue_free q core request d a kw h
  | Goodbye d reason => exact recv_goodbye_queue_free q core d reason h
  | Abort d reason => exact ⟨⟨h.1, h.2⟩, by simp [handle_msg_inner, recv_abort]⟩
  | Error typ request d err a kw => exact recv_error_queue_free q core typ request d err a kw h
  | Hello realm d => exact ⟨⟨h.1, h.2⟩, by simp [handle_msg_inner]⟩
  | Welcome s d => exact ⟨⟨h.1, h.2⟩, by simp [handle_msg_inner]⟩
  | Challenge m e => exact ⟨⟨h.1, h.2⟩, by simp [handle_msg_inner]⟩
  | Authenticate s e => exact ⟨⟨h.1, h.2⟩, by simp [handle_msg_inner]⟩
  | Publish r o t a kw => exact ⟨⟨h.1, h.2⟩, by simp [handle_msg_inner]⟩
  | Subscribe r o t => exact ⟨⟨h.1, h.2⟩, by simp [handle_msg_inner]⟩
  | Unsubscribe r s => exact ⟨⟨h.1, h.2⟩, by simp [handle_msg_inner]⟩
  | Call r o p a kw => exact ⟨⟨h.1, h.2⟩, by simp [handle_msg_inner]⟩
  | Register r o p => exact ⟨⟨h.1, h.2⟩, by simp [handle_msg_inner]⟩
  | Unregister r g => exact ⟨⟨h.1, h.2⟩, by simp [handle_msg_inner]⟩
  | Yield r o a kw => exact ⟨⟨h.1, h.2⟩, by simp [handle_msg_inner]⟩

theorem handle_peer_msg_queue_free (q : Nat) (core : CoreSt) (msg : Msg)
    (h : queue_free q core) :
    queue_free q (handle_peer_msg core msg).core ∧
    ∀ pub d a kw, Effect.push q pub d a kw ∉ (handle_peer_msg core msg).effects := by
  unfold handle_peer_msg
  cases msg.request_id with
  | none => exact handle_msg_inner_queue_free q core msg h
  | some request =>
    dsimp only
    by_cases hm : request ∈ core.pending_requests
    · rw [if_pos hm]
      exact handle_msg_inner_queue_free q _ msg ⟨h.1, h.2⟩
    · rw [if_neg hm]
      exact ⟨h, by simp⟩

theorem run_no_push (q : Nat) :
    ∀ (msgs : List Msg) (core : CoreSt), queue_free q core →
      ∀ pub d a kw, Effect.push q pub d a kw ∉ (run core msgs).2 := by
  intro msgs
  induction msgs with
  | nil => intro core h pub d a kw; simp [run]
  | cons m rest ih =>
    intro core h pub d a kw
    obtain ⟨hinv, heff⟩ := handle_peer_msg_queue_free q core m h
    unfold run
    dsimp only
    cases (handle_peer_msg core m).status with
    | shutdown => exact heff pub d a kw
    | ok =>
      intro hmem
      rcases List.mem_append.mp hmem with hmem | hmem
      · exact heff pub d a kw hmem
      · exact ih (handle_peer_msg core m).core hinv pub d a kw hmem

/-- C5: handling an Unsubscribe command deletes the subscription's entry
from `subscriptions` at once — before any acknowledgement from the server —
and afterwards no sequence of inbound messages (late EVENTs included) ever
pushes anything onto that subscription's queue `q`. The two well-formedness
hypotheses say the queue token is owned by this subscription alone and was
drawn from the freshness counter, which hold for every state the engine
actually reaches. -/
theorem c5_unsubscribe_stops_events :
    ∀ (core : CoreSt) (sub_id : WampId) (q res : Nat) (draws : List Nat)
      (se : Option WampError) (out : StepOut),
      alookup sub_id core.subscriptions = some q →
      (∀ p ∈ core.subscriptions, p.2 = q → p.1 = sub_id) →
      q < core.next_queue →
      send_unsubscribe core sub_id res draws se = some out →
      alookup sub_id out.core.subscriptions = none ∧
      ∀ msgs pub d a kw, Effect.push q pub d a kw ∉ (run out.core msgs).2 := by
  intro core sub_id q res draws se out hlk huniq hlt h
  unfold send_unsubscribe at h
  rw [hlk] at h
  dsimp only at h
  have hfree : ∀ p ∈ aerase sub_id core.subscriptions, p.2 ≠ q := by
    intro p hp he
    obtain ⟨hmem, hne⟩ := mem_aerase sub_id p _ hp
    exact hne (huniq p hmem he)
  cases hcr : create_request core.pending_requests draws with
  | none => rw [hcr] at h; simp at h
  | some rp =>
    obtain ⟨request, pending1⟩ := rp
    rw [hcr] at h
    cases se with
    | some e =>
      injection h with h
      rw [← h]
      refine ⟨alookup_aerase_self sub_id _, ?_⟩
      intro msgs pub d a kw
      apply run_no_push q msgs
      exact ⟨hfree, hlt⟩
    | none =>
      injection h with h
      rw [← h]
      refine ⟨alookup_aerase_self sub_id _, ?_⟩
      intro msgs pub d a kw
      apply run_no_push q msgs
      exact ⟨hfree, hlt⟩

/-- A state holding the single subscription `2 ↦ queue 0`. -/
def coreOneSub : CoreSt :=
  { coreEmpty with subscriptions := [(⟨2, by decide⟩, 0)], next_queue := 1 }

/-- Witness for C5: after unsubscribing ID 2 (send failing, which still
deletes the entry first), a late EVENT for ID 2 pushes nothing onto the old
queue 0. -/
theorem c5_unsubscribe_stops_events_witness :
    alookup (⟨2, by decide⟩ : WampId)
        ({ coreEmpty with next_queue := 1 } : CoreSt).subscriptions = none ∧
    Effect.push 0 ⟨5, by decide⟩ [] none none ∉
      (run { coreEmpty with next_queue := 1 }
        [Msg.Event ⟨2, by decide⟩ ⟨5, by decide⟩ [] none none]).2 := by
  have h := c5_unsubscribe_stops_events coreOneSub ⟨2, by decide⟩ 0 0 [1]
      (some .ConnectionError)
      ⟨{ coreEmpty with next_queue := 1 }, .shutdown,
        [.reply 0 (.error .ConnectionError)]⟩
      rfl (by decide) (by decide) rfl
  exact ⟨h.1,
    h.2 [Msg.Event ⟨2, by decide⟩ ⟨5, by decide⟩ [] none none]
      ⟨5, by decide⟩ [] none none⟩

/-! ## Subscribe options (`src/options/option.rs`, `src/options/subscription.rs`, C9) -/

/-- `OptionBuilder::with_option`: insert the option's key/value pair into a
clone of the current dict, or a fresh dict; `validate_option` passes every
non-`None` option through unchanged. -/
def with_option (current : Option WampDict) (key : String) (value : Arg) : WampDict :=
  match current with
  | some opts => ainsert key value opts
  | none => ainsert key value []

/-- `SubscriptionOptionItem::with_match`: the `match` pattern option a
caller can build (`exact`/`prefix`/`wildcard`). -/
def SubscriptionOptionItem.with_match (current : Option WampDict) (m : String) :
    WampDict :=
  with_option current "match" (Arg.String m)

/-- C9: the SUBSCRIBE message the engine sends always carries the empty
options dict — the Subscribe command has no options field, so a
caller-built match option (a non-empty dict, second conjunct) is never
transmitted. -/
theorem c9_subscribe_sends_empty_options :
    (∀ core topic res draws out,
      send_subscribe core topic res draws none = some out →
      ∀ rq p1, create_request core.pending_requests draws = some (rq, p1) →
        out.effects = [.sent (Msg.Subscribe rq [] topic)]) ∧
    SubscriptionOptionItem.with_match none "prefix" =
      [("match", Arg.String "prefix")] := by
  constructor
  · intro core topic res draws out h
    unfold send_subscribe at h
    cases hcr : create_request core.pending_requests draws with
    | none => rw [hcr] at h; simp at h
    | some rp =>
      obtain ⟨request, pending1⟩ := rp
      rw [hcr] at h
      injection h with h
      intro rq p1 hcr2
      injection hcr2 with hcr2
      have hrq : rq = request := (Prod.mk.injEq .. ▸ hcr2).1.symm
      subst hrq
      rw [← h]
  · rfl

/-- Witness for C9: a successful subscribe from the empty state emits
`[SUBSCRIBE, <req>, {}, topic]` with `{}` in the options position. -/
theorem c9_subscribe_sends_empty_options_witness :
    (StepOut.effects
        ⟨{ coreEmpty with
            pending_requests := [generate 1]
            pending_sub := [(generate 1, 0)] }, .ok,
          [.sent (Msg.Subscribe (generate 1) [] "peer.heartbeat")]⟩) =
      [.sent (Msg.Subscribe (generate 1) [] "peer.heartbeat")] :=
  c9_subscribe_sends_empty_options.1 coreEmpty "peer.heartbeat" 0 [1]
    ⟨{ coreEmpty with
        pending_requests := [generate 1]
        pending_sub := [(generate 1, 0)] }, .ok,
      [.sent (Msg.Subscribe (generate 1) [] "peer.heartbeat")]⟩
    rfl (generate 1) [generate 1] rfl

/-! ## Raw-socket handshake (`src/transport/tcp.rs`, C7) -/

/-- `SerializerType` (`src/serializer/mod.rs`): `repr(u8)` wire codes
Json = 1, MsgPack = 2, Cbor = 0. -/
inductive SerializerType
  | Json
  | MsgPack
  | Cbor

/-- The `as u8` value of a `SerializerType`. -/
def SerializerType.code : SerializerType → Nat
  | .Json => 1
  | .MsgPack => 2
  | .Cbor => 0

def MAX_MSG_SZ : Nat := 1 <<< 24

def MIN_MSG_SZ : Nat := 1 <<< 9

/-- Smallest power of two that is `≥ n` (`u32::next_power_of_two`; fuel 33
covers the whole `u32` range). -/
def next_pow2_go (n : Nat) : Nat → Nat → Nat
  | 0, acc => acc
  | fuel + 1, acc => if n ≤ acc then acc else next_pow2_go n fuel (2 * acc)

/-- `u32::checked_next_power_of_two`: `none` when the next power of two
would not fit in a `u32`. -/
def checked_next_power_of_two (n : Nat) : Option Nat :=
  if n ≤ 2 ^ 31 then some (next_pow2_go n 33 1) else none

/-- `HandshakeCtx` (`src/transport/tcp.rs` lines 43-110): only `msg_size`,
the chosen serializer, and byte 1 of the 4-byte client handshake are
modelled (byte 0 is the constant `0x7F`, bytes 2-3 are reserved zero). -/
structure HandshakeCtx where
  msg_size : Nat
  serializer : SerializerType
  client1 : Nat

/-- `HandshakeCtx::new`: byte 1 starts as `0xF0 & ((MsgPack as u8) & 0x0F)`
(which is 0). -/
def HandshakeCtx.new : HandshakeCtx :=
  { msg_size := 0
    serializer := .Json
    client1 := 0xF0 &&& (SerializerType.MsgPack.code &&& 0x0F) }

/-- `HandshakeCtx::set_msg_size`: clamp the requested size to the next
power of two within `[2^9, 2^24]`, store it in `msg_size` — and then set
the high nibble of byte 1 to the constant `0xF0`, independent of the
computed `req_size`. -/
def HandshakeCtx.set_msg_size (h : HandshakeCtx) (msg_size : Nat) : HandshakeCtx :=
  let req_size : Nat :=
    match checked_next_power_of_two msg_size with
    | some p =>
      if p < MIN_MSG_SZ then MIN_MSG_SZ
      else if p > MAX_MSG_SZ then MAX_MSG_SZ
      else p
    | none => MAX_MSG_SZ
  { h with msg_size := req_size, client1 := (h.client1 &&& 0x0F) ||| 0xF0 }

/-- `HandshakeCtx::set_serializer`: low nibble of byte 1 gets the
serializer code. -/
def HandshakeCtx.set_serializer (h : HandshakeCtx) (s : SerializerType) :
    HandshakeCtx :=
  { h with serializer := s, client1 := (h.client1 &&& 0xF0) ||| (s.code &&& 0x0F) }

/-- Byte 1 as actually sent by `tcp::connect`: `new()`, then
`set_msg_size(max_msg_size)`, then `set_serializer(s)` for the attempted
serializer. -/
def client_handshake_byte1 (max_msg_size : Nat) (s : SerializerType) : Nat :=
  ((HandshakeCtx.new.set_msg_size max_msg_size).set_serializer s).client1

/-- Fuel-driven helper: the exponent of the smallest power of two `≥ n`. -/
def ceil_log2_go (n : Nat) : Nat → Nat → Nat → Nat
  | 0, _, k => k
  | fuel + 1, acc, k => if n ≤ acc then k else ceil_log2_go n fuel (2 * acc) (k + 1)

/-- `ceil(log2 n)` for `n ≥ 1` (0 for `n ≤ 1`), total over the `u32` range. -/
def ceil_log2 (n : Nat) : Nat := ceil_log2_go n 64 1 0

/-- Modelled from the spec: the high nibble §4.3.1 prescribes for byte 1,
`ceil(log2(max_msg_size)) - 9` clamped to `[0, 15]`. -/
def spec_handshake_high_nibble (max_msg_size : Nat) : Nat :=
  min 15 (ceil_log2 max_msg_size - 9)

/-- C7 (what the code does instead of the spec): the high nibble of
handshake byte 1 is the constant 15 for *every* configured maximum message
size — `set_msg_size` ors in `0xF0` unconditionally — while the spec value
for 512 bytes is 0; the low nibble does carry the serializer code. -/
theorem c7_handshake_high_nibble_constant :
    (∀ sz s, client_handshake_byte1 sz s / 16 = 15 ∧
      client_handshake_byte1 sz s % 16 = s.code) ∧
    spec_handshake_high_nibble 512 = 0 ∧
    client_handshake_byte1 512 .Json / 16 ≠ spec_handshake_high_nibble 512 := by
  refine ⟨?_, by decide, by decide⟩
  intro sz s
  have h1 : client_handshake_byte1 sz s =
      (((HandshakeCtx.new.client1 &&& 0x0F) ||| 0xF0) &&& 0xF0) |||
        (s.code &&& 0x0F) := rfl
  rw [h1]
  cases s <;> exact ⟨by decide, by decide⟩

/-! ## Agent string advertisement (`src/client.rs`, `src/core/send.rs`, C8) -/

/-- `DEFAULT_AGENT_STR` (`src/common.rs` lines 15-16) is
`concat!(env!(CARGO_PKG_NAME), "_rs-", env!(CARGO_PKG_VERSION))`.
Modelled from the spec: the package name and version come from the crate
manifest, which is not part of the sources; per the spec the default agent
string is the product name and version of the client implementation. The
claims depend only on it being non-empty, which holds for every name and
version `concat!` can produce here since `"_rs-"` sits between them. -/
def DEFAULT_AGENT_STR : String := "wamp_async" ++ "_rs-" ++ "0.1.0"

/-- The `agent_str` field of the Join command as built by
`Client::inner_join_realm` (`src/client.rs` lines 261-265): `Some` exactly
when the configured agent string is empty, `None` otherwise. -/
def inner_join_realm_agent_str (agent : String) : Option String :=
  if agent = "" then some agent else none

/-- The HELLO `details` dict assembled by `send::join_realm`
(`src/core/send.rs` lines 75-109): roles, then the agent string when the
command carries one, then `authmethods` when non-empty, then `authid` when
present. (The `authextra` insertion, reachable only with authentication
methods and a supplied extra dict, is irrelevant to the agent key and
elided.) -/
def join_realm_details (roles : List String) (agent_str : Option String)
    (authentication_methods : List AuthMethod) (authid : Option String) :
    WampDict :=
  let details : WampDict := []
  let client_roles : WampDict := roles.map fun r => (r, Arg.Dict [])
  let details := ainsert "roles" (Arg.Dict client_roles) details
  let details :=
    match agent_str with
    | some agent => ainsert "agent" (Arg.String agent) details
    | none => details
  let details :=
    if authentication_methods.isEmpty then details
    else
      ainsert "authmethods"
        (Arg.List (authentication_methods.map fun m => Arg.String m.as_str)) details
  match authid with
  | some a => ainsert "authid" (Arg.String a) details
  | none => details

/-- Whether the HELLO sent by the plain `join_realm` path advertises an
agent string, as a function of the configured agent string. -/
def hello_advertises_agent (config_agent : String) : Bool :=
  (alookup "agent"
    (join_realm_details ["caller"] (inner_join_realm_agent_str config_agent)
      [] none)).isSome

/-- C8 (what the code does): the advertisement condition is inverted — the
default (non-empty) agent string is *not* advertised, while configuring the
empty string inserts an (empty) `agent` entry into HELLO's details. -/
theorem c8_agent_advertisement_inverted :
    DEFAULT_AGENT_STR ≠ "" ∧
    hello_advertises_agent DEFAULT_AGENT_STR = false ∧
    hello_advertises_agent "" = true := by
  refine ⟨by decide, ?_, ?_⟩ <;> decide

end WampAsync
